import Mathlib

/-!
Verification development for the TIFFImageryProvider tile provider
(src/packages/TIFFImageryProvider/src/TIFFImageryProvider.ts).

The TypeScript source is shallowly embedded: JavaScript numbers that the
program only ever uses as non-negative integers (pixel sizes, zoom levels,
image counts, timestamps in milliseconds) are modelled as `Nat`; band
statistics values as `Int`; geographic coordinates as exact rationals
(the program computes with IEEE doubles, modelled here as exact
arithmetic); fallible paths return `Except`; the error event channel is
modelled as the explicit list of payloads raised on it, and calls into the
raster-decode collaborator are counted explicitly.
-/

/-! ## Pyramid level selector (`getCogLevels`, source lines 676-702)

The loop scans overview indices `i` from `imageCount - 1` down to `0`,
reading `size = max(width, height)` of the image at index `i`.  We model
the source as the list `sizes` of those per-index sizes.  The JS
comparison `size > tileSize * 0.5` is the integer condition
`tileSize < 2 * size`; the loop records in `maximumLevel` the first
(largest) index satisfying it, or `imageCount - 1` when none does. -/

def maxAcceptable (sizes : List Nat) (tileSize : Nat) : Nat :=
  match (List.range sizes.length).reverse.find? (fun i => tileSize < 2 * sizes.getD i 0) with
  | some i => i
  | none => sizes.length - 1

/-- Number of synthesized low-zoom levels pushed for the image at index
`imageCount - 1` before the scan: `Math.ceil((size - tileSize) / tileSize)`,
which for `size > tileSize` equals `(size - 1) / tileSize` in `Nat`
division and is `0` for `1 ≤ size ≤ tileSize`. -/
def firstImageLevel (sizes : List Nat) (tileSize : Nat) : Nat :=
  let s := sizes.getD (sizes.length - 1) 0
  if tileSize < s then (s - 1) / tileSize else 0

/-- The level map returned by `getCogLevels`: `firstImageLevel` copies of
index `imageCount - 1`, followed by `maximumLevel, maximumLevel - 1, …, 0`.
Position `z` in the list is the overview index used for zoom `z`. -/
def getCogLevels (sizes : List Nat) (tileSize : Nat) : List Nat :=
  if sizes.isEmpty then []
  else
    List.replicate (firstImageLevel sizes tileSize) (sizes.length - 1)
      ++ (List.range (maxAcceptable sizes tileSize + 1)).reverse

/-- Shape asserted by the specification for the pyramid level map: the
overview index is non-increasing as zoom decreases (for zooms `i ≤ j`,
`L[i] ≤ L[j]`), and the entry for zoom 0 equals overview index 0. -/
def levelsClaimedShape (L : List Nat) : Prop :=
  (∀ i : Fin L.length, ∀ j : Fin L.length, (i : Nat) ≤ (j : Nat) → L.get i ≤ L.get j) ∧
  L.getD 0 1 = 0

instance (L : List Nat) : Decidable (levelsClaimedShape L) := by
  unfold levelsClaimedShape; infer_instance

theorem pairwise_ge_replicate (k v : Nat) :
    List.Pairwise (fun a b => b ≤ a) (List.replicate k v) := by
  induction k with
  | zero => simp
  | succ n ih =>
    rw [List.replicate_succ]
    exact List.Pairwise.cons (fun b hb => le_of_eq (List.eq_of_mem_replicate hb)) ih

theorem maxAcceptable_lt (sizes : List Nat) (t : Nat) (h : sizes ≠ []) :
    maxAcceptable sizes t < sizes.length := by
  unfold maxAcceptable
  cases hf : (List.range sizes.length).reverse.find? (fun i => t < 2 * sizes.getD i 0) with
  | none =>
    have : 0 < sizes.length := List.length_pos.mpr h
    simp only []
    omega
  | some i =>
    have hm := List.mem_of_find?_eq_some hf
    rw [List.mem_reverse, List.mem_range] at hm
    simpa using hm

/-! ## Render options and band statistics (`getReadSamples`, `getBandValues`,
source lines 704-811)

JavaScript distinguishes an absent `convertToRGB` key from an explicit
`false`; both are falsy in the guards, but the object spread in the
constructor's default-mode assignment preserves an explicit `false`, so the
flag is modelled as `Option Bool`.  `single` and `multi` are `Option`s for
the same reason. -/

structure Channel where
  band : Nat
  chMin : Option Int
  chMax : Option Int
deriving DecidableEq

structure MultiOpts where
  r : Option Channel
  g : Option Channel
  b : Option Channel
deriving DecidableEq

/-- Single-band options as they reach `getBandValues` and the constructor:
`band` is still optional there (its default of 1 is applied later, inside
the constructor); the expression string only matters by presence. -/
structure SingleOpts where
  band : Option Nat
  domain : Option (Int × Int)
  hasExpression : Bool
deriving DecidableEq

structure RenderOpts where
  nodata : Option Int
  convertToRGB : Option Bool
  multi : Option MultiOpts
  single : Option SingleOpts
deriving DecidableEq

instance : Inhabited RenderOpts := ⟨⟨none, none, none, none⟩⟩

/-- Truthiness of `renderOptions.convertToRGB` as tested by the source. -/
def RenderOpts.rgbOn (ro : RenderOpts) : Bool := ro.convertToRGB.getD false

/-- Result of `Object.keys(multi).find(key => multi[key]?.band === bandNum)`:
the first of the channels `r`, `g`, `b` (in insertion order) present and
holding the requested 1-based band number. -/
def findChannel (m : MultiOpts) (bandNum : Nat) : Option Channel :=
  ([m.r, m.g, m.b].filterMap id).find? (fun c => c.band == bandNum)

/-- Per-band metadata as returned by `image.getGDALMetadata(i)`:
the embedded `STATISTICS_MINIMUM` / `STATISTICS_MAXIMUM` entries, when
present (numeric coercion of the metadata strings is modelled as `Int`). -/
structure BandMeta where
  statsMin : Option Int
  statsMax : Option Int

/-- Decode-collaborator view used by `getBandValues`: per-sample metadata,
the full raster of one sample at the coarsest pyramid level used by the
empirical fallback (NaN filtering is implicit in the `Int` model), and the
image-level nodata value. -/
structure BandSource where
  meta : Nat → BandMeta
  raster : Nat → List Int
  srcNoData : Option Int

/-- Value of `bands[bandNum]` after the `convertToRGB` default step
(source lines 753-758): `[0, 255]` exactly when RGB conversion is on. -/
def bandR1 (ro : RenderOpts) : Option (Int × Int) :=
  if ro.rgbOn then some (0, 255) else none

/-- Value of `bands[bandNum]` after the multi-channel step (source lines
760-772): an explicit per-channel min/max overrides the previous value. -/
def bandR2 (ro : RenderOpts) (bandNum : Nat) : Option (Int × Int) :=
  match ro.multi with
  | none => bandR1 ro
  | some mo =>
    match findChannel mo bandNum with
    | some c =>
      match c.chMin, c.chMax with
      | some mn, some mx => some (mn, mx)
      | _, _ => bandR1 ro
    | none => bandR1 ro

/-- Value of `bands[bandNum]` after the single-band-domain step (source
lines 774-784): a non-expression single config with a matching band and an
explicit domain overrides the previous value. -/
def bandR3 (ro : RenderOpts) (bandNum : Nat) : Option (Int × Int) :=
  match ro.single with
  | some s =>
    if !s.hasExpression && s.band == some bandNum && s.domain.isSome then s.domain
    else bandR2 ro bandNum
  | none => bandR2 ro bandNum

/-- Truthiness of `single?.expression` as tested at source line 786. -/
def singleExprOn (ro : RenderOpts) : Bool :=
  match ro.single with
  | some s => s.hasExpression
  | none => false

/-- Resolution of one band of `getBandValues` (source lines 742-808) for
sample index `i` (1-based band `i + 1`).  Returns the resolved range, when
one is recorded, together with the number of windowed raster reads issued
for this band (the empirical fallback at lines 786-806 reads the band's
raster exactly once).  `gmm` abstracts the `getMinMax` helper from the
utils collaborator. -/
def resolveBand (gmm : List Int → Option Int → Int × Int)
    (ro : RenderOpts) (src : BandSource) (i : Nat) : Option (Int × Int) × Nat :=
  match (src.meta i).statsMin, (src.meta i).statsMax with
  | some mn, some mx => (some (mn, mx), 0)
  | _, _ =>
    if !singleExprOn ro && (bandR3 ro (i + 1)).isNone then
      (some (gmm (src.raster i) (ro.nodata.orElse (fun _ => src.srcNoData))), 1)
    else
      (bandR3 ro (i + 1), 0)

/-- The `bands` record built by `getBandValues` over the read samples,
as an association list keyed by 1-based band number, paired with the total
number of raster reads issued by the empirical fallback. -/
def getBandValues (gmm : List Int → Option Int → Int × Int)
    (ro : RenderOpts) (src : BandSource) (rs : List Nat) :
    List (Nat × (Int × Int)) × Nat :=
  (rs.filterMap (fun i => ((resolveBand gmm ro src i).1).map (fun rng => (i + 1, rng))),
   (rs.map (fun i => (resolveBand gmm ro src i).2)).sum)

theorem resolveBand_stats (gmm : List Int → Option Int → Int × Int)
    (ro : RenderOpts) (src : BandSource) (i : Nat) (mn mx : Int)
    (hmn : (src.meta i).statsMin = some mn) (hmx : (src.meta i).statsMax = some mx) :
    resolveBand gmm ro src i = (some (mn, mx), 0) := by
  unfold resolveBand
  rw [hmn, hmx]

theorem getBandValues_lookup_stats (gmm : List Int → Option Int → Int × Int)
    (ro : RenderOpts) (src : BandSource) (rs : List Nat) (i : Nat) (mn mx : Int)
    (hmem : i ∈ rs)
    (hmn : (src.meta i).statsMin = some mn) (hmx : (src.meta i).statsMax = some mx) :
    ((getBandValues gmm ro src rs).1).lookup (i + 1) = some (mn, mx) := by
  induction rs with
  | nil => cases hmem
  | cons j tl ih =>
    unfold getBandValues
    simp only [List.filterMap_cons]
    by_cases hji : j = i
    · subst hji
      rw [resolveBand_stats gmm ro src j mn mx hmn hmx]
      simp only [Option.map_some', List.lookup, beq_self_eq_true]
    · have hmem2 : i ∈ tl := by
        rcases List.mem_cons.mp hmem with h | h
        · exact absurd h.symm hji
        · exact h
      cases h : (resolveBand gmm ro src j).1 with
      | none =>
        simp only [h, Option.map_none']
        exact ih hmem2
      | some rng =>
        simp only [h, Option.map_some', List.lookup]
        have hne : ((i + 1 : Nat) == (j + 1 : Nat)) = false := by
          simp only [beq_eq_false_iff_ne, ne_eq]
          omega
        rw [hne]
        exact ih hmem2

theorem bandR1_isSome (ro : RenderOpts) (h : ro.rgbOn = true) : (bandR1 ro).isSome := by
  simp [bandR1, h]

theorem bandR2_isSome (ro : RenderOpts) (b : Nat) (h : ro.rgbOn = true) :
    (bandR2 ro b).isSome := by
  have h1 := bandR1_isSome ro h
  unfold bandR2
  split
  · exact h1
  · split
    · split
      · rfl
      · exact h1
    · exact h1

theorem bandR3_isSome (ro : RenderOpts) (b : Nat) (h : ro.rgbOn = true) :
    (bandR3 ro b).isSome := by
  have h2 := bandR2_isSome ro b h
  unfold bandR3
  split
  · split
    · rename_i s hc
      simp only [Bool.and_eq_true] at hc
      exact hc.2
    · exact h2
  · exact h2

theorem resolveBand_rgb_no_decode (gmm : List Int → Option Int → Int × Int)
    (ro : RenderOpts) (src : BandSource) (i : Nat) (h : ro.rgbOn = true) :
    (resolveBand gmm ro src i).2 = 0 := by
  have h3 := bandR3_isSome ro (i + 1) h
  obtain ⟨v, hv⟩ := Option.isSome_iff_exists.mp h3
  have hnone : (bandR3 ro (i + 1)).isNone = false := by rw [hv]; rfl
  have hcond : (!singleExprOn ro && (bandR3 ro (i + 1)).isNone) = false := by
    rw [hnone, Bool.and_false]
  unfold resolveBand
  cases hmn : (src.meta i).statsMin with
  | none =>
    simp only [hcond, Bool.false_eq_true, if_false]
  | some mn =>
    cases hmx : (src.meta i).statsMax with
    | none => simp only [hcond, Bool.false_eq_true, if_false]
    | some mx => rfl

theorem getBandValues_rgb_no_decode (gmm : List Int → Option Int → Int × Int)
    (ro : RenderOpts) (src : BandSource) (rs : List Nat) (h : ro.rgbOn = true) :
    (getBandValues gmm ro src rs).2 = 0 := by
  unfold getBandValues
  refine List.sum_eq_zero ?_
  intro x hx
  rcases List.mem_map.mp hx with ⟨i, _, rfl⟩
  exact resolveBand_rgb_no_decode gmm ro src i h

/-! ## Provider constructor (source lines 217-368)

The constructor sequence relevant to the claims: the `samples < 3 &&
convertToRGB` guard (lines 248-253), the default render-mode assignment
(lines 254-275), projection resolution (lines 281-321, abstracted as its
outcome `projOutcome` since the projection libraries are collaborators),
rectangle normalization (lines 323-327, kept in degrees here; adding 360
degrees is the same comparison and correction as adding 2π radians because
degree-to-radian conversion is strictly monotone and linear), the
`maximumLevel` clamp (lines 333-335), the single-band plot block wrapped in
`try/catch` (lines 339-365, whose `catch` logs the error, raises it on the
error event and continues), and finally `ready = true` (line 367). -/

structure CtorInput where
  samples : Nat
  renderOptions : Option RenderOpts
  bands : List (Nat × (Int × Int))
  cogLevels : List Nat
  maximumLevel : Option Nat
  minimumLevel : Option Nat
  projOutcome : Except Unit (Rat × Rat × Rat × Rat)
  srcNoData : Option Int

inductive CtorError where
  | convertToRGBOnFewSamples
  | unsupportedProjection
deriving DecidableEq

/-- Value of `this.renderOptions` right after line 242
(`options.renderOptions ?? {}`), before the default-mode assignment. -/
def rawRenderOpts (inp : CtorInput) : RenderOpts :=
  inp.renderOptions.getD default

/-- Value of `this.renderOptions` after the default-mode assignment (lines
254-272) and the `single.band ?? 1` default (lines 273-275).  The object
spreads `{convertToRGB: true, ...this.renderOptions}` and
`{single: {band: 1}, ...this.renderOptions}` put the default first, so a
key already present in the user options (even an explicit `false`) wins. -/
def defaultedRenderOpts (inp : CtorInput) : RenderOpts :=
  let ro0 := rawRenderOpts inp
  let ro1 :=
    if ro0.single.isNone && ro0.multi.isNone && !ro0.rgbOn then
      if 1 < inp.samples then
        { ro0 with convertToRGB := ro0.convertToRGB.orElse (fun _ => some true) }
      else
        { ro0 with single := some { band := some 1, domain := none, hasExpression := false } }
    else ro0
  match ro1.single with
  | some s => { ro1 with single := some { s with band := some (s.band.getD 1) } }
  | none => ro1

/-- Condition under which the `try` block at lines 339-361 throws: a single
render mode whose band has no resolved range, either without an expression
(the explicit `Invalid band` throw at line 343) or with an expression but
no domain (line 348 then reads `band.min` of `undefined`).  All other work
in the block is collaborator calls, modelled as total. -/
def plotFails (ro : RenderOpts) (bands : List (Nat × (Int × Int))) : Bool :=
  match ro.single with
  | none => false
  | some s =>
    match bands.lookup (s.band.getD 1) with
    | some _ => false
    | none => !s.hasExpression || s.domain.isNone

/-- State of the provider fields the claims are about when the constructor
returns.  `errorEvents` counts payloads raised on the `_error` event during
construction; `plotPresent` records whether `this.plot` was assigned. -/
structure ProviderState where
  ready : Bool
  renderOptions : RenderOpts
  rectangle : Rat × Rat × Rat × Rat
  maximumLevel : Nat
  minimumLevel : Nat
  errorEvents : Nat
  plotPresent : Bool
  noData : Option Int
  bands : List (Nat × (Int × Int))
deriving DecidableEq

/-- Rectangle normalization of lines 323-327, in degrees: when the east
edge is numerically below the west edge (antimeridian crossing), a full
turn is added to east. -/
def normalizeRectDeg (r : Rat × Rat × Rat × Rat) : Rat × Rat × Rat × Rat :=
  if r.2.2.1 < r.1 then (r.1, r.2.1, r.2.2.1 + 360, r.2.2.2) else r

/-- The constructor (lines 217-368).  A thrown error before the plot block
aborts construction; the plot block's `try/catch` swallows its error after
raising it on the error event, and `ready` is set to `true` afterwards
either way. -/
def constructorModel (inp : CtorInput) : Except CtorError ProviderState :=
  let ro0 := rawRenderOpts inp
  if inp.samples < 3 && ro0.rgbOn then
    .error .convertToRGBOnFewSamples
  else
    match inp.projOutcome with
    | .error _ => .error .unsupportedProjection
    | .ok rect =>
      let ro := defaultedRenderOpts inp
      let fails := plotFails ro inp.bands
      .ok { ready := true
            renderOptions := ro
            rectangle := normalizeRectDeg rect
            maximumLevel := min (inp.maximumLevel.getD 18) (inp.cogLevels.length - 1)
            minimumLevel := inp.minimumLevel.getD 0
            errorEvents := if fails then 1 else 0
            plotPresent := ro.single.isSome && !fails
            noData := ro0.nodata.orElse (fun _ => inp.srcNoData)
            bands := inp.bands }

/-- Projection of a constructor outcome onto the `ready` flag (`none` when
construction aborted by a throw, in which case `ready` was never set). -/
def readyAfter : Except CtorError ProviderState → Option Bool
  | .ok st => some st.ready
  | .error _ => none

/-- Projection of a constructor outcome onto the number of error events
raised during construction. -/
def eventsAfter : Except CtorError ProviderState → Option Nat
  | .ok st => some st.errorEvents
  | .error _ => none

/-- Early failure condition of the constructor: the `convertToRGB` guard or
an unresolvable projection. -/
def ctorEarlyFailure (inp : CtorInput) : Prop :=
  (inp.samples < 3 ∧ (rawRenderOpts inp).rgbOn = true) ∨ inp.projOutcome.isOk = false

instance (inp : CtorInput) : Decidable (ctorEarlyFailure inp) := by
  unfold ctorEarlyFailure; infer_instance

theorem ctor_guard_fires (inp : CtorInput)
    (hs : inp.samples < 3) (hrgb : (rawRenderOpts inp).rgbOn = true) :
    constructorModel inp = .error .convertToRGBOnFewSamples := by
  have hc : (decide (inp.samples < 3) && (rawRenderOpts inp).rgbOn) = true := by
    simp [hs, hrgb]
  simp only [constructorModel, hc, if_true]

theorem ctor_abort_policy_aux (inp : CtorInput) (st : ProviderState)
    (hst : constructorModel inp = .ok st) :
    st.ready = true ∧
    st.errorEvents = (if plotFails (defaultedRenderOpts inp) inp.bands then 1 else 0) := by
  simp only [constructorModel] at hst
  by_cases hc : (decide (inp.samples < 3) && (rawRenderOpts inp).rgbOn) = true
  · rw [if_pos hc] at hst
    cases hst
  · rw [if_neg hc] at hst
    cases hp : inp.projOutcome with
    | error e => rw [hp] at hst; cases hst
    | ok rect =>
      rw [hp] at hst
      cases hst
      exact ⟨rfl, rfl⟩

theorem ctor_early_failure_aborts (inp : CtorInput)
    (h : ctorEarlyFailure inp) : (constructorModel inp).isOk = false := by
  rcases h with ⟨h1, h2⟩ | h
  · rw [ctor_guard_fires inp h1 h2]
    rfl
  · cases hp : inp.projOutcome with
    | ok v => rw [hp] at h; simp [Except.isOk, Except.toBool] at h
    | error e =>
      simp only [constructorModel, hp]
      by_cases hc : (decide (inp.samples < 3) && (rawRenderOpts inp).rgbOn) = true
      · simp [hc, Except.isOk, Except.toBool]
      · simp [hc, Except.isOk, Except.toBool]

/-- C5: for a source with fewer than 3 samples per pixel on which
`renderOptions.convertToRGB` is explicitly requested, construction fails
with the `DeveloperError` of source lines 248-253, and the band resolution
that runs before the constructor in the `fromGeoTIFF` pipeline issues no
windowed raster read (with RGB conversion requested, every band receives
the `[0, 255]` default or an earlier value, so the empirical read fallback
never fires). -/
theorem ctor_convertToRGB_guard (inp : CtorInput)
    (gmm : List Int → Option Int → Int × Int) (src : BandSource) (rs : List Nat)
    (hs : inp.samples < 3) (hrgb : (rawRenderOpts inp).rgbOn = true) :
    constructorModel inp = .error .convertToRGBOnFewSamples ∧
    (getBandValues gmm (rawRenderOpts inp) src rs).2 = 0 :=
  ⟨ctor_guard_fires inp hs hrgb, getBandValues_rgb_no_decode gmm _ src rs hrgb⟩

def c5In : CtorInput :=
  { samples := 2
    renderOptions := some { nodata := none, convertToRGB := some true, multi := none, single := none }
    bands := []
    cogLevels := [1, 0]
    maximumLevel := none
    minimumLevel := none
    projOutcome := .ok (0, 0, 10, 10)
    srcNoData := none }

def c5Src : BandSource :=
  { meta := fun _ => { statsMin := none, statsMax := none }
    raster := fun _ => [1, 2, 3]
    srcNoData := none }

/-- Witness for C5: a concrete 2-band source with `convertToRGB: true`. -/
theorem ctor_convertToRGB_guard_witness :
    constructorModel c5In = .error .convertToRGBOnFewSamples ∧
    (getBandValues (fun _ _ => (0, 0)) (rawRenderOpts c5In) c5Src [0, 1, 2]).2 = 0 :=
  ctor_convertToRGB_guard c5In (fun _ _ => (0, 0)) c5Src [0, 1, 2] (by decide) (by decide)

/-- C4 (amended): a failure thrown before the plot block (the
`convertToRGB` guard or an unresolvable projection) aborts construction,
so the provider is never marked ready; an error inside the single-band
plot block is caught, raised once on the error event channel, and the
constructor still sets `ready = true`. -/
theorem ctor_abort_policy (inp : CtorInput) :
    (ctorEarlyFailure inp → (constructorModel inp).isOk = false) ∧
    (∀ st, constructorModel inp = .ok st →
        st.ready = true ∧
        st.errorEvents = (if plotFails (defaultedRenderOpts inp) inp.bands then 1 else 0)) :=
  ⟨ctor_early_failure_aborts inp, fun st hst => ctor_abort_policy_aux inp st hst⟩

def c4EarlyIn : CtorInput :=
  { samples := 1
    renderOptions := some { nodata := none, convertToRGB := some true, multi := none, single := none }
    bands := []
    cogLevels := [0]
    maximumLevel := none
    minimumLevel := none
    projOutcome := .ok (0, 0, 10, 10)
    srcNoData := none }

/-- Witness for C4: the guard failure on a concrete input aborts
construction. -/
theorem ctor_abort_policy_witness :
    (constructorModel c4EarlyIn).isOk = false :=
  (ctor_abort_policy c4EarlyIn).1 (Or.inl ⟨by decide, by decide⟩)

def c4In : CtorInput :=
  { samples := 1
    renderOptions := some { nodata := none, convertToRGB := none, multi := none,
                            single := some { band := some 5, domain := none, hasExpression := false } }
    bands := []
    cogLevels := [0]
    maximumLevel := none
    minimumLevel := none
    projOutcome := .ok (0, 0, 10, 10)
    srcNoData := none }

/-- C4 counterexample: a single-band configuration naming band 5, which has
no resolved range, makes the plot block at source lines 339-365 throw
`Invalid band5`; the `catch` raises the error on the error event channel
(one event is recorded) yet construction completes and `ready` is set to
`true`, contradicting the claim that any construction-time failure leaves
the provider never ready. -/
theorem ctor_plot_error_still_ready :
    readyAfter (constructorModel c4In) = some true ∧
    eventsAfter (constructorModel c4In) = some 1 := by decide

/-- C10: a source with exactly 2 samples per pixel and no render mode in
the caller options (no `single`, no `multi`, no `convertToRGB` key) passes
the `samples < 3` guard (which inspects only the caller-supplied flag and
runs before the default-mode assignment), construction succeeds, and the
resolved render mode is RGB conversion. -/
theorem ctor_two_band_defaults_rgb (inp : CtorInput) (rect : Rat × Rat × Rat × Rat)
    (hs : inp.samples = 2)
    (hsingle : (rawRenderOpts inp).single = none)
    (hmulti : (rawRenderOpts inp).multi = none)
    (hrgb : (rawRenderOpts inp).convertToRGB = none)
    (hproj : inp.projOutcome = .ok rect) :
    ∃ st, constructorModel inp = .ok st ∧ st.ready = true ∧
      st.renderOptions.convertToRGB = some true ∧
      st.renderOptions.single = none ∧ st.renderOptions.multi = none := by
  have hrgbOn : (rawRenderOpts inp).rgbOn = false := by
    simp [RenderOpts.rgbOn, hrgb]
  have hro : defaultedRenderOpts inp =
      { rawRenderOpts inp with convertToRGB := some true } := by
    simp only [defaultedRenderOpts, hsingle, hmulti, Option.isNone_none, hrgbOn,
      Bool.not_false, Bool.and_self, Bool.and_true, if_true, hs]
    norm_num
    simp [hrgb, Option.orElse, hsingle]
  have hguard : (decide (inp.samples < 3) && (rawRenderOpts inp).rgbOn) = false := by
    rw [hrgbOn, Bool.and_false]
  simp only [constructorModel, hguard, Bool.false_eq_true, if_false, hproj]
  refine ⟨_, rfl, rfl, ?_, ?_, ?_⟩
  · rw [hro]
  · rw [hro]
    exact hsingle
  · rw [hro]
    exact hmulti

def c10In : CtorInput :=
  { samples := 2
    renderOptions := none
    bands := [(1, (0, 255)), (2, (0, 255))]
    cogLevels := [1, 0]
    maximumLevel := none
    minimumLevel := none
    projOutcome := .ok (0, 0, 10, 10)
    srcNoData := none }

/-- Projection of a constructor outcome onto the resolved `convertToRGB`
flag. -/
def rgbAfter : Except CtorError ProviderState → Option (Option Bool)
  | .ok st => some st.renderOptions.convertToRGB
  | .error _ => none

/-- Witness for C10: a concrete 2-band source with empty options resolves
to RGB conversion and a ready provider. -/
theorem ctor_two_band_defaults_rgb_witness :
    rgbAfter (constructorModel c10In) = some (some true) ∧
    readyAfter (constructorModel c10In) = some true := by
  obtain ⟨st, h1, h2, h3, _, _⟩ :=
    ctor_two_band_defaults_rgb c10In (0, 0, 10, 10) rfl rfl rfl rfl rfl
  rw [h1]
  unfold rgbAfter readyAfter
  simp only [h3, h2]
  exact ⟨trivial, trivial⟩

/-- C2 counterexample: for a two-image pyramid with full-resolution size
2048 at index 0 and one 1024-sized overview at index 1, with tile size 512,
`getCogLevels` returns `[1, 1, 0]`: the entry for zoom 0 is overview index
1, not 0, and the overview index strictly increases (0 to 1) as zoom
decreases from 2 to 1, so the claimed shape (non-increasing index as zoom
decreases with `cogLevels[0] = 0`) fails on both conjuncts. -/
theorem getCogLevels_claim_false :
    ¬ levelsClaimedShape (getCogLevels [2048, 1024] 512) := by decide

/-- C2 (amended): for every non-empty size configuration and positive tile
size, the pyramid level map is non-increasing in overview index as zoom
increases (equivalently, the overview index is non-decreasing as zoom
decreases: lower zoom means a higher overview index, the coarser image),
and the entry at the last position (the maximum zoom) is always overview
index 0, the full-resolution image. -/
theorem getCogLevels_descending_last_zero (sizes : List Nat) (tileSize : Nat)
    (hne : sizes ≠ []) (_ht : 0 < tileSize) (_hs : ∀ s ∈ sizes, 0 < s) :
    List.Pairwise (fun a b => b ≤ a) (getCogLevels sizes tileSize) ∧
    (getCogLevels sizes tileSize).getLast? = some 0 := by
  have hiff : sizes.isEmpty = false := by simpa [List.isEmpty_iff] using hne
  unfold getCogLevels
  rw [hiff]
  simp only [Bool.false_eq_true, if_false]
  constructor
  · rw [List.pairwise_append]
    refine ⟨pairwise_ge_replicate _ _, ?_, ?_⟩
    · rw [List.pairwise_reverse]
      exact (List.pairwise_lt_range _).imp (fun h => le_of_lt h)
    · intro a ha b hb
      have ha2 := List.eq_of_mem_replicate ha
      rw [List.mem_reverse, List.mem_range] at hb
      have hlt := maxAcceptable_lt sizes tileSize hne
      omega
  · rw [List.getLast?_append, List.getLast?_reverse, List.range_succ_eq_map]
    simp

/-- Witness for C2: the amended shape holds on the concrete two-image
pyramid. -/
theorem getCogLevels_descending_last_zero_witness :
    List.Pairwise (fun a b => b ≤ a) (getCogLevels [2048, 1024] 512) ∧
    (getCogLevels [2048, 1024] 512).getLast? = some 0 :=
  getCogLevels_descending_last_zero [2048, 1024] 512 (by decide) (by decide) (by decide)

/-- C7: a band whose metadata embeds both `STATISTICS_MINIMUM` and
`STATISTICS_MAXIMUM` resolves to exactly those values in the `bands`
record, whatever the render options (`convertToRGB` defaults, multi-channel
min/max, single-band domain) and whatever the pixel content, and the
empirical sampling fallback issues no raster read for that band. -/
theorem bandValues_stats_priority (gmm : List Int → Option Int → Int × Int)
    (ro : RenderOpts) (src : BandSource) (rs : List Nat) (i : Nat) (mn mx : Int)
    (hmem : i ∈ rs)
    (hmn : (src.meta i).statsMin = some mn) (hmx : (src.meta i).statsMax = some mx) :
    ((getBandValues gmm ro src rs).1).lookup (i + 1) = some (mn, mx) ∧
    (resolveBand gmm ro src i).2 = 0 := by
  constructor
  · exact getBandValues_lookup_stats gmm ro src rs i mn mx hmem hmn hmx
  · rw [resolveBand_stats gmm ro src i mn mx hmn hmx]

def c7Src : BandSource :=
  { meta := fun i => if i = 0 then { statsMin := some 7, statsMax := some 99 }
                     else { statsMin := none, statsMax := none }
    raster := fun _ => [1, 2, 3]
    srcNoData := none }

def c7Opts : RenderOpts :=
  { nodata := none
    convertToRGB := some true
    multi := none
    single := some { band := some 1, domain := some (0, 1), hasExpression := false } }

/-- Witness for C7: on a concrete source whose band 1 embeds statistics
7/99, the resolved range is exactly (7, 99) even though `convertToRGB` and
a single-band domain are both configured. -/
theorem bandValues_stats_priority_witness :
    ((getBandValues (fun _ _ => (0, 0)) c7Opts c7Src [0, 1, 2]).1).lookup 1 = some (7, 99) ∧
    (resolveBand (fun _ _ => (0, 0)) c7Opts c7Src 0).2 = 0 :=
  bandValues_stats_priority (fun _ _ => (0, 0)) c7Opts c7Src [0, 1, 2] 0 7 99
    (by decide) (by decide) (by decide)

/-! ## Tile requests (`_loadTile` and `requestImage`, source lines 389-530)

The per-request flow: the ready guard, the zoom-range guard, the cache
check (which tests only presence of the key, not its age), the decode call
issued by `_loadTile` (whose `catch` raises the error on the error event
and rethrows), the destroyed check, the composite step (worker farm or
plot; its failure, like any other throw inside `requestImage`'s `try`, is
raised once on the error event by the outer `catch` and rethrown), and the
cache write followed by the TTL sweep.  The decode and composite
collaborators are abstracted by their outcome for this request; `events`
lists the payloads raised on the error event in order and `decodeCalls`
counts windowed reads issued. -/

deriving instance DecidableEq for Except

structure TileKey where
  x : Nat
  y : Nat
  z : Nat
deriving DecidableEq

structure CacheEntry (R : Type) where
  time : Nat
  data : R
deriving DecidableEq

structure RequestState (R : Type) where
  ready : Bool
  destroyed : Bool
  minimumLevel : Nat
  maximumLevel : Nat
  cacheTime : Nat
  cache : List (TileKey × CacheEntry R)
deriving DecidableEq

structure TileEnv (E D R : Type) where
  decodeResult : Except E D
  compositeResult : D → Except E (Option R)

inductive ReqError (E : Type) where
  | notReady
  | decode (e : E)
  | composite (e : E)
deriving DecidableEq

structure ReqOutcome (E R : Type) where
  result : Except (ReqError E) (Option R)
  events : List E
  decodeCalls : Nat
  cache : List (TileKey × CacheEntry R)
deriving DecidableEq

/-- The cache check of source lines 446-447: when the TTL is non-zero
(truthy) and the key is present, the stored data is returned; the entry's
age is not examined. -/
def cachedHit {R : Type} (st : RequestState R) (k : TileKey) : Option R :=
  if st.cacheTime = 0 then none
  else (st.cache.lookup k).map (fun entry => entry.data)

/-- `_loadTile`'s decode step (lines 420-435): on failure the error is
raised on the error event and rethrown. -/
def loadTileModel {E D R : Type} (env : TileEnv E D R) : Except E D × List E :=
  match env.decodeResult with
  | .ok d => (.ok d, [])
  | .error e => (.error e, [e])

/-- The cache assignment of line 514: store the entry under the key,
replacing any previous entry. -/
def cacheInsert {R : Type} (k : TileKey) (now : Nat) (r : R)
    (c : List (TileKey × CacheEntry R)) : List (TileKey × CacheEntry R) :=
  (k, ⟨now, r⟩) :: c.filter (fun p => p.1 != k)

/-- The sweep of lines 518-522: every entry with `now - time > cacheTime`
is deleted (with `Nat` subtraction this matches the JS comparison, since
stored times never exceed `now`). -/
def cacheSweep {R : Type} (c : List (TileKey × CacheEntry R))
    (now cacheTime : Nat) : List (TileKey × CacheEntry R) :=
  c.filter (fun p => now - p.2.time ≤ cacheTime)

/-- `requestImage` (lines 438-530) for one request arriving at time `now`:
ready guard, zoom-range guard, cache check, decode, destroyed check,
composite, cache write and sweep. -/
def requestImageModel {E D R : Type} (st : RequestState R) (env : TileEnv E D R)
    (k : TileKey) (now : Nat) : ReqOutcome E R :=
  if st.ready = true then
    if k.z < st.minimumLevel ∨ st.maximumLevel < k.z then
      ⟨.ok none, [], 0, st.cache⟩
    else
      match cachedHit st k with
      | some d => ⟨.ok (some d), [], 0, st.cache⟩
      | none =>
        match loadTileModel env with
        | (.error e, ev) => ⟨.error (.decode e), ev ++ [e], 1, st.cache⟩
        | (.ok d, _) =>
          if st.destroyed = true then ⟨.ok none, [], 1, st.cache⟩
          else
            match env.compositeResult d with
            | .error e => ⟨.error (.composite e), [e], 1, st.cache⟩
            | .ok none => ⟨.ok none, [], 1, st.cache⟩
            | .ok (some r) =>
              if st.cacheTime = 0 then ⟨.ok (some r), [], 1, st.cache⟩
              else ⟨.ok (some r), [], 1,
                    cacheSweep (cacheInsert k now r st.cache) now st.cacheTime⟩
  else ⟨.error .notReady, [], 0, st.cache⟩

/-- C6: on a ready provider, a request with zoom below `minimumLevel` or
above `maximumLevel` returns an empty result (`undefined`) rather than an
error, issues no decode call, raises no error event, and leaves the cache
untouched. -/
theorem requestImage_out_of_range {E D R : Type} (st : RequestState R)
    (env : TileEnv E D R) (k : TileKey) (now : Nat)
    (hready : st.ready = true)
    (hz : k.z < st.minimumLevel ∨ st.maximumLevel < k.z) :
    requestImageModel st env k now = ⟨.ok none, [], 0, st.cache⟩ := by
  unfold requestImageModel
  rw [if_pos hready, if_pos hz]

def c6State : RequestState Nat :=
  { ready := true, destroyed := false, minimumLevel := 0, maximumLevel := 5,
    cacheTime := 60000, cache := [] }

def c6Env : TileEnv Nat Nat Nat :=
  { decodeResult := .ok 7, compositeResult := fun d => .ok (some d) }

/-- Witness for C6: a request at `z = maximumLevel + 1` on a concrete ready
provider. -/
theorem requestImage_out_of_range_witness :
    requestImageModel c6State c6Env ⟨0, 0, 6⟩ 0 = ⟨.ok none, [], 0, []⟩ :=
  requestImage_out_of_range c6State c6Env ⟨0, 0, 6⟩ 0 rfl (Or.inr (by decide))

def c1State : RequestState Nat :=
  { ready := true, destroyed := false, minimumLevel := 0, maximumLevel := 5,
    cacheTime := 10, cache := [] }

def c1Env : TileEnv Nat Nat Nat :=
  { decodeResult := .ok 7, compositeResult := fun d => .ok (some (d + 1)) }

def c1Key : TileKey := ⟨0, 0, 0⟩

def c1FirstOutcome : ReqOutcome Nat Nat := requestImageModel c1State c1Env c1Key 0

def c1SecondState : RequestState Nat := { c1State with cache := c1FirstOutcome.cache }

def c1SecondOutcome : ReqOutcome Nat Nat :=
  requestImageModel c1SecondState c1Env c1Key 1000

/-- C1 counterexample: with TTL 10 ms, a first request at time 0 decodes
and stores the rendered tile under key (0,0,0); the identical request at
time 1000 — long after the TTL elapsed — still returns the stored result
with zero decode calls, because the cache check at lines 446-447 tests only
presence of the key and never its age.  The claim that an expired entry is
not returned and that a request after the TTL issues a fresh decode is
false. -/
theorem requestImage_stale_cache_returned :
    c1FirstOutcome.decodeCalls = 1 ∧
    c1FirstOutcome.cache.lookup c1Key = some ⟨0, 8⟩ ∧
    c1SecondOutcome.result = .ok (some 8) ∧
    c1SecondOutcome.decodeCalls = 0 := by decide

/-- C1 (amended): the cache check tests only key presence: whenever the TTL
is non-zero and an entry for the key is present, `requestImage` returns the
stored data with no decode call, regardless of the entry's age; entries
older than the TTL are evicted only by the sweep run on a successful cache
write, which keeps exactly the entries with `now - time ≤ TTL`. -/
theorem requestImage_cache_hit_ignores_age {E D R : Type} (st : RequestState R)
    (env : TileEnv E D R) (k : TileKey) (now : Nat) (entry : CacheEntry R)
    (hready : st.ready = true)
    (hz : ¬(k.z < st.minimumLevel ∨ st.maximumLevel < k.z))
    (hT : st.cacheTime ≠ 0)
    (hhit : st.cache.lookup k = some entry) :
    requestImageModel st env k now = ⟨.ok (some entry.data), [], 0, st.cache⟩ ∧
    (∀ (c : List (TileKey × CacheEntry R)) (t T : Nat) (p : TileKey × CacheEntry R),
        p ∈ cacheSweep c t T ↔ p ∈ c ∧ t - p.2.time ≤ T) := by
  constructor
  · have hch : cachedHit st k = some entry.data := by
      unfold cachedHit
      rw [if_neg hT, hhit]
      rfl
    unfold requestImageModel
    rw [if_pos hready, if_neg hz, hch]
  · intro c t T p
    unfold cacheSweep
    rw [List.mem_filter]
    simp

def c1wState : RequestState Nat :=
  { ready := true, destroyed := false, minimumLevel := 0, maximumLevel := 5,
    cacheTime := 10, cache := [(⟨1, 2, 3⟩, ⟨0, 42⟩)] }

/-- Witness for C1: a concrete stale entry (stored at time 0, requested at
time 500 with TTL 10) is still returned with no decode call. -/
theorem requestImage_cache_hit_ignores_age_witness :
    requestImageModel c1wState c1Env ⟨1, 2, 3⟩ 500 =
      ⟨.ok (some 42), [], 0, c1wState.cache⟩ :=
  (requestImage_cache_hit_ignores_age c1wState c1Env ⟨1, 2, 3⟩ 500 ⟨0, 42⟩
    rfl (by decide) (by decide) (by decide)).1

def c3State : RequestState Nat :=
  { ready := true, destroyed := false, minimumLevel := 0, maximumLevel := 5,
    cacheTime := 10, cache := [] }

def c3Env : TileEnv Nat Nat Nat :=
  { decodeResult := .error 42, compositeResult := fun d => .ok (some d) }

/-- C3 counterexample: when the decode collaborator fails, the error is
raised on the provider's error event twice — once by `_loadTile`'s catch
(line 433) and once more by `requestImage`'s catch (line 527) — before
being rethrown, so it is not reported exactly once as claimed. -/
theorem decode_error_reported_twice :
    (requestImageModel c3State c3Env ⟨1, 2, 3⟩ 0).events = [42, 42] ∧
    (requestImageModel c3State c3Env ⟨1, 2, 3⟩ 0).result = .error (.decode 42) ∧
    (requestImageModel c3State c3Env ⟨1, 2, 3⟩ 0).events.length ≠ 1 := by decide

/-- C3 (amended): on a cache miss within the zoom range, a decode failure
is raised on the error event twice (once by `_loadTile`'s catch, once by
`requestImage`'s catch) and the same error is rethrown to the caller; a
composite failure is raised exactly once and rethrown; in both cases the
decode collaborator is invoked exactly once, with no automatic retry. -/
theorem requestImage_error_channel {E D R : Type} (st : RequestState R)
    (env : TileEnv E D R) (k : TileKey) (now : Nat)
    (hready : st.ready = true)
    (hz : ¬(k.z < st.minimumLevel ∨ st.maximumLevel < k.z))
    (hmiss : cachedHit st k = none) :
    (∀ e, env.decodeResult = .error e →
        requestImageModel st env k now = ⟨.error (.decode e), [e, e], 1, st.cache⟩) ∧
    (∀ d e, env.decodeResult = .ok d → st.destroyed = false →
        env.compositeResult d = .error e →
        requestImageModel st env k now = ⟨.error (.composite e), [e], 1, st.cache⟩) := by
  constructor
  · intro e he
    unfold requestImageModel loadTileModel
    rw [if_pos hready, if_neg hz, hmiss, he]
    rfl
  · intro d e hd hdes hc
    unfold requestImageModel loadTileModel
    rw [if_pos hready, if_neg hz, hmiss, hd]
    have hif : (st.destroyed = true) = False := by
      rw [hdes]
      simp
    simp only [hif, if_false, hc]

def c3wEnv : TileEnv Nat Nat Nat :=
  { decodeResult := .error 9, compositeResult := fun d => .ok (some d) }

/-- Witness for C3: a concrete failing decode yields the error twice on the
event channel and a rethrown decode error. -/
theorem requestImage_error_channel_witness :
    requestImageModel c3State c3wEnv ⟨0, 0, 1⟩ 0 = ⟨.error (.decode 9), [9, 9], 1, []⟩ :=
  ((requestImage_error_channel c3State c3wEnv ⟨0, 0, 1⟩ 0 rfl (by decide) (by decide)).1) 9 rfl

/-! ## Rectangle resolution in radians (source lines 293-327)

`Rectangle.fromDegrees` converts each corner to radians by multiplying by
π/180, and lines 325-327 add `CMath.TWO_PI` to the east edge when it is
below the west edge.  The conversion factor π is an arbitrary positive
real; the development keeps it as an explicit positive rational parameter
`piQ` (the normalization property is invariant under the choice of the
positive scale, so it holds in particular for the real π; JS doubles are
modelled as exact rationals). -/

structure RectRad where
  west : Rat
  south : Rat
  east : Rat
  north : Rat
deriving DecidableEq

/-- Degree-to-radian conversion of `CesiumMath.toRadians`. -/
def degToRad (piQ d : Rat) : Rat := d * piQ / 180

/-- The rectangle as built from the projected corner degrees and then
normalized across the antimeridian (lines 293-327). -/
def resolveRectRad (piQ w s e n : Rat) : RectRad :=
  let wr := degToRad piQ w
  let sr := degToRad piQ s
  let er := degToRad piQ e
  let nr := degToRad piQ n
  if er < wr then ⟨wr, sr, er + 2 * piQ, nr⟩ else ⟨wr, sr, er, nr⟩

/-- C8: for geographic corners with the east longitude below the west one
(antimeridian crossing) and both within the valid longitude range, the
east edge is normalized by adding a full turn and the resulting rectangle
satisfies `east_radians > west_radians`; without a crossing the east edge
is left unchanged and `east_radians ≥ west_radians` already holds. -/
theorem rectangle_antimeridian_normalization (piQ w s e n : Rat)
    (hpi : 0 < piQ) (hw : w ≤ 180) (he : -180 < e) :
    (e < w →
      (resolveRectRad piQ w s e n).east = degToRad piQ e + 2 * piQ ∧
      (resolveRectRad piQ w s e n).west < (resolveRectRad piQ w s e n).east) ∧
    (w ≤ e →
      (resolveRectRad piQ w s e n).east = degToRad piQ e ∧
      (resolveRectRad piQ w s e n).west ≤ (resolveRectRad piQ w s e n).east) := by
  constructor
  · intro hcross
    have hlt : degToRad piQ e < degToRad piQ w := by
      unfold degToRad
      have h180 : (0 : Rat) < 180 := by norm_num
      exact div_lt_div_of_pos_right (by nlinarith) h180
    unfold resolveRectRad
    rw [if_pos hlt]
    constructor
    · rfl
    · show degToRad piQ w < degToRad piQ e + 2 * piQ
      unfold degToRad
      rw [div_add' _ _ _ (by norm_num : (180 : Rat) ≠ 0)]
      refine div_lt_div_of_pos_right ?_ (by norm_num)
      nlinarith
  · intro hle
    have hge : ¬ degToRad piQ e < degToRad piQ w := by
      unfold degToRad
      push_neg
      refine div_le_div_of_nonneg_right ?_ (by norm_num : (0 : Rat) ≤ 180)
      nlinarith
    unfold resolveRectRad
    rw [if_neg hge]
    constructor
    · rfl
    · show degToRad piQ w ≤ degToRad piQ e
      unfold degToRad
      refine div_le_div_of_nonneg_right ?_ (by norm_num : (0 : Rat) ≤ 180)
      nlinarith

/-- Witness for C8: a dataset spanning from longitude 170 across the
antimeridian to longitude -170, with a concrete positive rational in place
of π: the normalized east edge exceeds the west edge. -/
theorem rectangle_antimeridian_normalization_witness :
    (resolveRectRad (355 / 113) 170 (-10) (-170) 80).east =
      degToRad (355 / 113) (-170) + 2 * (355 / 113) ∧
    (resolveRectRad (355 / 113) 170 (-10) (-170) 80).west <
      (resolveRectRad (355 / 113) 170 (-10) (-170) 80).east :=
  (rectangle_antimeridian_normalization (355 / 113) 170 (-10) (-170) 80
    (by norm_num) (by norm_num) (by norm_num)).1 (by norm_num)

/-! ## Feature probe (`pickFeatures`, source lines 532-587)

The probe returns `undefined` when `enablePickFeatures` is falsy; otherwise
it clamps the zoom to `maximumLevel`, computes the target pixel from the
point's fractional position inside the dataset rectangle (adding a full
turn to the longitude gap when the longitude lies west of the rectangle),
and always issues a fresh 1×1-pixel windowed read.  It never touches the
tile cache, which the model expresses by carrying the cache through
unchanged and showing the outcome does not depend on it.  `~~x` on the
non-negative product is the floor; rectangle `width` is Cesium's getter
`east < west ? east + 2π - west : east - west`.  As in the rectangle
model, 2π is carried as an explicit rational parameter `twoPi`. -/

structure PickInput where
  enablePickFeatures : Bool
  maximumLevel : Nat
  rectWest : Rat
  rectSouth : Rat
  rectEast : Rat
  rectNorth : Rat
  twoPi : Rat
  imageWidth : Nat
  imageHeight : Nat
  cache : List (TileKey × CacheEntry Nat)
deriving DecidableEq

/-- Cesium's `Rectangle.width`: `east - west`, wrapped by a full turn when
`east < west`. -/
def pickLonWidth (inp : PickInput) : Rat :=
  if inp.rectEast < inp.rectWest then inp.rectEast + inp.twoPi - inp.rectWest
  else inp.rectEast - inp.rectWest

/-- The longitude gap of lines 550-554, with the antimeridian correction
when the longitude lies west of the rectangle. -/
def pickLonGap (inp : PickInput) (longitude : Rat) : Rat :=
  if longitude < inp.rectWest then longitude - inp.rectWest + inp.twoPi
  else longitude - inp.rectWest

/-- The pixel column of line 556: `~~(Math.abs(lonGap / lonWidth) * width)`. -/
def pickPosX (inp : PickInput) (longitude : Rat) : Int :=
  Int.floor (|pickLonGap inp longitude / pickLonWidth inp| * (inp.imageWidth : Rat))

/-- The pixel row of line 557. -/
def pickPosY (inp : PickInput) (latitude : Rat) : Int :=
  Int.floor (|(inp.rectNorth - latitude) / (inp.rectNorth - inp.rectSouth)| *
    (inp.imageHeight : Rat))

structure PickOutcome where
  window : Option (Int × Int × Int × Int)
  usedLevel : Option Nat
  decodeCalls : Nat
  cacheAfter : List (TileKey × CacheEntry Nat)
deriving DecidableEq

/-- `pickFeatures` (lines 532-587): the guard, the zoom clamp, the pixel
window, and the single 1×1 read. -/
def pickFeaturesModel (inp : PickInput) (zoom : Nat) (longitude latitude : Rat) :
    PickOutcome :=
  if inp.enablePickFeatures = false then ⟨none, none, 0, inp.cache⟩
  else
    let z := if inp.maximumLevel < zoom then inp.maximumLevel else zoom
    let posX := pickPosX inp longitude
    let posY := pickPosY inp latitude
    ⟨some (posX, posY, posX + 1, posY + 1), some z, 1, inp.cache⟩

/-- C9: when probing is disabled the probe returns an empty result with no
decode; otherwise it issues exactly one decode of the 1×1 window anchored
at the pixel computed from the point's fractional position (with the
antimeridian-aware longitude gap), with the zoom clamped to
`maximumLevel`; in all cases the tile cache is neither consulted (the
outcome is the same for any cache contents) nor written. -/
theorem pickFeatures_contract (inp : PickInput) (zoom : Nat)
    (longitude latitude : Rat) :
    (inp.enablePickFeatures = false →
        pickFeaturesModel inp zoom longitude latitude = ⟨none, none, 0, inp.cache⟩) ∧
    (inp.enablePickFeatures = true →
        pickFeaturesModel inp zoom longitude latitude =
          ⟨some (pickPosX inp longitude, pickPosY inp latitude,
                 pickPosX inp longitude + 1, pickPosY inp latitude + 1),
           some (min zoom inp.maximumLevel), 1, inp.cache⟩) ∧
    (pickFeaturesModel inp zoom longitude latitude).cacheAfter = inp.cache ∧
    (∀ c : List (TileKey × CacheEntry Nat),
        (pickFeaturesModel { inp with cache := c } zoom longitude latitude).window =
          (pickFeaturesModel inp zoom longitude latitude).window ∧
        (pickFeaturesModel { inp with cache := c } zoom longitude latitude).usedLevel =
          (pickFeaturesModel inp zoom longitude latitude).usedLevel ∧
        (pickFeaturesModel { inp with cache := c } zoom longitude latitude).decodeCalls =
          (pickFeaturesModel inp zoom longitude latitude).decodeCalls) := by
  have hmin : (if inp.maximumLevel < zoom then inp.maximumLevel else zoom) =
      min zoom inp.maximumLevel := by
    rw [Nat.min_def]
    split
    · rw [if_neg]
      omega
    · rw [if_pos]
      omega
  refine ⟨?_, ?_, ?_, ?_⟩
  · intro h
    unfold pickFeaturesModel
    rw [if_pos h]
  · intro h
    unfold pickFeaturesModel
    rw [if_neg (by rw [h]; simp : ¬ inp.enablePickFeatures = false), hmin]
  · unfold pickFeaturesModel
    cases h : inp.enablePickFeatures
    · rw [if_pos rfl]
    · rw [if_neg (by simp)]
  · intro c
    unfold pickFeaturesModel pickPosX pickPosY pickLonGap pickLonWidth
    cases h : inp.enablePickFeatures <;> simp

def c9In : PickInput :=
  { enablePickFeatures := true
    maximumLevel := 5
    rectWest := -1
    rectSouth := -1
    rectEast := 1
    rectNorth := 1
    twoPi := 44 / 7
    imageWidth := 100
    imageHeight := 100
    cache := [] }

/-- Witness for C9: a concrete enabled probe at zoom 9 is clamped to level
5 and issues one decode of the computed 1×1 window. -/
theorem pickFeatures_contract_witness :
    pickFeaturesModel c9In 9 0 0 =
      ⟨some (pickPosX c9In 0, pickPosY c9In 0,
             pickPosX c9In 0 + 1, pickPosY c9In 0 + 1), some 5, 1, []⟩ :=
  ((pickFeatures_contract c9In 9 0 0).2.1) rfl
